import Mathlib

/-!
Verification of the quinnbot status-aggregation core (`bot.py`) and the
update-webhook handler (`update_webhook.py`).

The Python code is shallowly embedded: Python dicts become association
lists over `String` keys (insertion-ordered, like Python dicts), JSON
values become explicit Lean structures, the network layer becomes an
explicit `Resp` outcome datatype (network error / HTTP response with a
parse result), and each function of the source is translated into a Lean
function of the same shape.
-/

namespace QuinnBot

/-- Static program configuration, one entry of the `PROGRAMS` dict in `bot.py`. -/
structure ProgInfo where
  name : String
  description : String
  emoji : String
  monitor_name : String
deriving Repr, DecidableEq

/-- The `PROGRAMS` dict of `bot.py` (insertion order preserved). -/
def PROGRAMS : List (String × ProgInfo) :=
  [("quinnflix",
    { name := "Quinnflix", description := "Media streaming & request service",
      emoji := "🎬", monitor_name := "Quinnflix" }),
   ("vintage",
    { name := "Vintage Studio Code", description := "Vintage Story game server",
      emoji := "🎮", monitor_name := "Vintage Studio Code" }),
   ("sugarcraft",
    { name := "Sugarcraft", description := "Minecraft server",
      emoji := "⛏️", monitor_name := "Sugarcraft" })]

/-- `PROGRAMS.keys()`: the tracked-service identifiers, in dict order. -/
def programIds : List String := PROGRAMS.map Prod.fst

/-- Lookup in a Python dict modelled as an association list:
`d[k]` / `d.get(k)` returns the value at the (unique) matching key. -/
def dictGet {α : Type} : List (String × α) → String → Option α
  | [], _ => none
  | p :: t, k => if p.1 == k then some p.2 else dictGet t k

/-- Python `k in d` membership test on the association-list dict. -/
def dictContains {α : Type} : List (String × α) → String → Bool
  | [], _ => false
  | p :: t, k => p.1 == k || dictContains t k

/-- Python `d[k] = v`: replace the value at an existing key in place
(keeping its position, as Python dicts do) or append a new binding. -/
def dictInsert {α : Type} : List (String × α) → String → α → List (String × α)
  | [], k, v => [(k, v)]
  | p :: t, k, v => if p.1 == k then (k, v) :: t else p :: dictInsert t k v

/-- `d.keys()` of an association-list dict, in order. -/
def keysOf {α : Type} (d : List (String × α)) : List String := d.map Prod.fst

/-- One entry of a `monitorList` array in the status-page JSON body:
`monitor.get('id')` (an optional JSON number) and `monitor.get('name')`. -/
structure RawMonitor where
  id : Option Int
  name : Option String
deriving Repr, DecidableEq

/-- Python `str` applied to `monitor.get('id')`: `None` prints as "None". -/
def pyStr : Option Int → String
  | none => "None"
  | some n => toString n

/-- The loop of `fetch_uptime_kuma_status` (bot.py lines 108-114) that maps
monitor IDs to names from `status_data['publicGroupList'][..]['monitorList']`.
A group is modelled by its `monitorList`; the other group fields are unused. -/
def monitorIdToName (publicGroupList : List (List RawMonitor)) :
    List (String × String) :=
  publicGroupList.foldl (fun d monitorList =>
    monitorList.foldl (fun d monitor =>
      let monitor_id := pyStr monitor.id
      let monitor_name := monitor.name.getD ""
      if monitor_id ≠ "" && monitor_name ≠ "" then dictInsert d monitor_id monitor_name
      else d) d) []

/-- One heartbeat sample: `beat.get('status')`, an optional JSON integer. -/
structure Beat where
  status : Option Int
deriving Repr, DecidableEq

/-- The status-code table of `fetch_uptime_kuma_status` (bot.py lines 142-149):
1 ↦ online, 0 ↦ offline, 2 ↦ maintenance, anything else ↦ offline. -/
def mapStatusValue (status_value : Option Int) : String :=
  if status_value = some 1 then "online"
  else if status_value = some 0 then "offline"
  else if status_value = some 2 then "maintenance"
  else "offline"

/-- One iteration of the `for monitor_id, beats in heartbeat_list.items()` loop
(bot.py lines 135-151): a non-empty beat list contributes the mapped status of
its last (most recent) sample. -/
def heartbeatStep (monitor_statuses : List (String × String))
    (p : String × List Beat) : List (String × String) :=
  match p.2.getLast? with
  | some latest_beat => dictInsert monitor_statuses p.1 (mapStatusValue latest_beat.status)
  | none => monitor_statuses

/-- The `monitor_statuses` dict computed from `heartbeat_data['heartbeatList']`. -/
def monitorStatuses (heartbeat_list : List (String × List Beat)) :
    List (String × String) :=
  heartbeat_list.foldl heartbeatStep []

/-- The `for m_id, m_name in monitor_id_to_name.items(): if m_name == monitor_name`
search (bot.py lines 159-163): first id whose name matches, else `None`. -/
def findMonitorId (monitor_id_to_name : List (String × String))
    (monitor_name : String) : Option String :=
  (monitor_id_to_name.find? (fun p => p.2 == monitor_name)).map Prod.fst

/-- The status assigned to one tracked program by the reconciliation loop of
`fetch_uptime_kuma_status` (bot.py lines 156-169): resolve the program's
monitor name to an id; if found and truthy and that id has a computed status,
take it, else 'offline'. The `if monitor_id and monitor_id in monitor_statuses`
guard makes the subscript total, rendered here by `Option.getD`. -/
def programStatusOf (monitor_id_to_name : List (String × String))
    (monitor_statuses : List (String × String)) (p : String × ProgInfo) : String :=
  match findMonitorId monitor_id_to_name p.2.monitor_name with
  | some mid =>
    if mid ≠ "" && dictContains monitor_statuses mid then
      (dictGet monitor_statuses mid).getD "offline"
    else "offline"
  | none => "offline"

/-- The reconciliation loop of `fetch_uptime_kuma_status` (bot.py lines 154-169):
one entry per tracked program, in `PROGRAMS` order. -/
def programStatuses (monitor_id_to_name : List (String × String))
    (monitor_statuses : List (String × String)) : List (String × String) :=
  PROGRAMS.map (fun p => (p.1, programStatusOf monitor_id_to_name monitor_statuses p))

/-- The fallback dict `{prog_id: 'offline' for prog_id in PROGRAMS.keys()}`. -/
def allOffline : List (String × String) := PROGRAMS.map (fun p => (p.1, "offline"))

/-- Outcome of one `session.get`: a raised exception (network error / timeout),
or an HTTP response with a status code and — for a 200 body — the result of
`response.json()` (`none` models a parse failure raising an exception). -/
inductive Resp (α : Type) where
  | netErr : Resp α
  | httpResp (status : Nat) (body : Option α) : Resp α
deriving Repr, DecidableEq

/-- `fetch_uptime_kuma_status` (bot.py lines 83-180) over explicit outcomes of
its two HTTP calls. `configured` models the `UPTIME_KUMA_URL`/slug check.
Control flow follows the source's nested try/except blocks: a directory
network error is caught by the outermost handler (line 178), a malformed
directory body or a heartbeat-call network error by the middle handler
(line 175), a malformed heartbeat body by the innermost handler (line 172);
each of those handlers returns the all-offline dict. Only a missing
configuration or a non-200 directory response returns `None`. -/
def fetch_uptime_kuma_status (configured : Bool)
    (dirResp : Resp (List (List RawMonitor)))
    (hbResp : Resp (List (String × List Beat))) :
    Option (List (String × String)) :=
  if !configured then none
  else
    match dirResp with
    | .netErr => some allOffline
    | .httpResp status body =>
      if status ≠ 200 then none
      else
        match body with
        | none => some allOffline
        | some status_data =>
          let monitor_id_to_name := monitorIdToName status_data
          match hbResp with
          | .netErr => some allOffline
          | .httpResp hbStatus hbBody =>
            if hbStatus ≠ 200 then some allOffline
            else
              match hbBody with
              | none => some allOffline
              | some heartbeat_data =>
                some (programStatuses monitor_id_to_name (monitorStatuses heartbeat_data))

/-- Cache update of `update_status_loop` (bot.py lines 294-301).
`if latest_status:` is Python truthiness: `None` and the empty dict are
falsy, so only a non-empty fetched dict replaces the cache; otherwise an
empty cache is filled with all-offline and a non-empty one is kept. -/
def update_status_tick (cached_program_status : List (String × String))
    (latest_status : Option (List (String × String))) : List (String × String) :=
  match latest_status with
  | some s =>
    if s.isEmpty then
      if cached_program_status.isEmpty then allOffline else cached_program_status
    else s
  | none =>
    if cached_program_status.isEmpty then allOffline else cached_program_status

/-- The `status_emojis` dict of `update_status_loop` (bot.py line 303). -/
def status_emojis : List (String × String) :=
  [("online", "✅"), ("offline", "❌"), ("maintenance", "🔧")]

/-- The presence-string loop of `update_status_loop` (bot.py lines 306-310):
`PROGRAMS[prog_id]` is an unguarded subscript, so a missing key raises
`KeyError`; that failure is modelled by `none`. -/
def statusParts : List (String × String) → Option (List String)
  | [] => some []
  | p :: rest =>
    match dictGet PROGRAMS p.1, statusParts rest with
    | some prog_info, some parts =>
      some ((prog_info.emoji ++ ((dictGet status_emojis p.2).getD "❓")) :: parts)
    | _, _ => none

/-- `status_text = " | ".join(status_parts)` (bot.py line 312), propagating a
`KeyError` from the loop as `none`. -/
def statusText (cached_program_status : List (String × String)) : Option String :=
  (statusParts cached_program_status).map (fun parts => String.intercalate " | " parts)

/-- The inputs of one polling tick's fetch: configuration flag and the two
HTTP call outcomes. -/
structure FetchInput where
  configured : Bool
  dirResp : Resp (List (List RawMonitor))
  hbResp : Resp (List (String × List Beat))

/-- The fetch result `latest_status` produced by one tick's inputs. -/
def fetchOutput (i : FetchInput) : Option (List (String × String)) :=
  fetch_uptime_kuma_status i.configured i.dirResp i.hbResp

/-- The polling loop run from process start: the cache starts empty
(bot.py line 63) and each tick applies `update_status_tick`. -/
def runLoop (inputs : List FetchInput) : List (String × String) :=
  inputs.foldl (fun cache i => update_status_tick cache (fetchOutput i)) []

/-- One guild's entry in the `server_settings` JSON document: both fields are
optional, since the code creates entries as `{}` (in `setup`) or as
`{'programs': [...]}` (in `button_callback`). -/
structure GuildSettings where
  channel : Option Int
  programs : Option (List String)
deriving Repr, DecidableEq

/-- A guild entry created as the empty dict `{}`. -/
def emptyGuildSettings : GuildSettings := { channel := none, programs := none }

/-- The in-memory `server_settings` document: a dict from guild id to entry. -/
def ServerSettings : Type := List (String × GuildSettings)

/-- The mutation performed by the `/setup` command (bot.py lines 371-376):
create the guild's entry as `{}` if absent, then set its `'channel'` field. -/
def setChannel (server_settings : ServerSettings) (guild_id : String)
    (channel_id : Int) : ServerSettings :=
  let entry := (dictGet server_settings guild_id).getD emptyGuildSettings
  dictInsert server_settings guild_id { entry with channel := some channel_id }

/-- `server_settings.get(guild_id, {}).get('channel')`: the configured channel. -/
def getChannel (server_settings : ServerSettings) (guild_id : String) : Option Int :=
  ((dictGet server_settings guild_id).getD emptyGuildSettings).channel

/-- `server_settings.get(guild_id, {}).get('programs', list(PROGRAMS.keys()))`
(bot.py lines 191, 219, 452): the guild's effective subscription list,
defaulting to all tracked programs. -/
def getPrograms (server_settings : ServerSettings) (guild_id : String) : List String :=
  (((dictGet server_settings guild_id).getD emptyGuildSettings).programs).getD programIds

/-- The mutation performed by `ProgramSelectView.button_callback`
(bot.py lines 215-227): create the guild's entry as
`{'programs': list(PROGRAMS.keys())}` if absent, read the effective
preference list, remove the program's first occurrence if present
(`list.remove`) or append it, and store the result. -/
def toggleSubscription (server_settings : ServerSettings) (guild_id : String)
    (program_id : String) : ServerSettings :=
  let settings0 :=
    if dictContains server_settings guild_id then server_settings
    else dictInsert server_settings guild_id
      { emptyGuildSettings with programs := some programIds }
  let entry := (dictGet settings0 guild_id).getD emptyGuildSettings
  let current_prefs := entry.programs.getD programIds
  let new_prefs :=
    if program_id ∈ current_prefs then current_prefs.erase program_id
    else current_prefs ++ [program_id]
  dictInsert settings0 guild_id { entry with programs := some new_prefs }

/-- The webhook `SECRET` constant (update_webhook.py line 8). -/
def SECRET : String := "sweetbroisaselfinsert"

/-- Outcome of one request to `/update`: the response body, the HTTP status,
and whether `subprocess.run(['/home/kidcorvid/quinnbot/update.sh'])` ran. -/
structure WebhookResult where
  body : String
  status : Nat
  ranUpdate : Bool
deriving Repr, DecidableEq

/-- `handle_webhook` (update_webhook.py lines 11-26). The HMAC-SHA256 hex
digest computed by Python's `hmac`/`hashlib` standard library is abstracted
as the `hexdigest` parameter (taking the secret and the raw request bytes);
the handler's control flow does not depend on its value.
`hmac.compare_digest` is a timing-safe string equality, modelled as `==`. -/
def handle_webhook (hexdigest : String → List Nat → String)
    (signature : Option String) (request_data : List Nat) : WebhookResult :=
  match signature with
  | some sig =>
    let expected := "sha256=" ++ hexdigest SECRET request_data
    if sig == expected then { body := "OK", status := 200, ranUpdate := true }
    else { body := "Unauthorized", status := 401, ranUpdate := false }
  | none => { body := "OK", status := 200, ranUpdate := true }

/-! Lemmas about the association-list dict operations. -/

theorem dictGet_insert_self {α : Type} (d : List (String × α)) (k : String) (v : α) :
    dictGet (dictInsert d k v) k = some v := by
  induction d with
  | nil => simp [dictInsert, dictGet]
  | cons p t ih =>
    by_cases h : p.1 = k
    · simp [dictInsert, dictGet, h]
    · simp [dictInsert, dictGet, h, ih]

theorem dictGet_insert_ne {α : Type} (d : List (String × α)) (k k' : String) (v : α)
    (h : k' ≠ k) : dictGet (dictInsert d k' v) k = dictGet d k := by
  induction d with
  | nil => simp [dictInsert, dictGet, h]
  | cons p t ih =>
    by_cases hp : p.1 = k'
    · subst hp
      simp [dictInsert, dictGet, h]
    · simp [dictInsert, dictGet, hp, ih]

theorem dictGet_eq_none_of_not_contains {α : Type} (d : List (String × α)) (k : String)
    (h : dictContains d k = false) : dictGet d k = none := by
  induction d with
  | nil => rfl
  | cons p t ih =>
    simp only [dictContains, Bool.or_eq_false_iff] at h
    simp [dictGet, h.1, ih h.2]

/-! Lemmas about the status aggregator. -/

theorem keysOf_programStatuses (dir ms : List (String × String)) :
    keysOf (programStatuses dir ms) = programIds := by
  unfold keysOf programStatuses programIds
  rw [List.map_map]
  exact List.map_congr_left (fun p _ => rfl)

/-- C3: for every directory and heartbeat input, the key set of the snapshot
produced by the reconciliation loop equals exactly the tracked-service id set
`PROGRAMS.keys()` — one entry per tracked service, no more, no fewer. -/
theorem reconcile_key_set (dir ms : List (String × String)) :
    keysOf (programStatuses dir ms) = programIds :=
  keysOf_programStatuses dir ms

/-- C1: if the fetch fails (returns `None`) and the cached snapshot is
non-empty, the cache after the polling tick is the pre-failure snapshot,
unchanged. -/
theorem fallback_law (cache : List (String × String)) (cfg : Bool)
    (dirResp : Resp (List (List RawMonitor))) (hbResp : Resp (List (String × List Beat)))
    (hfail : fetch_uptime_kuma_status cfg dirResp hbResp = none)
    (hne : cache ≠ []) :
    update_status_tick cache (fetch_uptime_kuma_status cfg dirResp hbResp) = cache := by
  rw [hfail]
  simp [update_status_tick, hne]

theorem fallback_law_witness :
    update_status_tick [("quinnflix", "online")]
      (fetch_uptime_kuma_status false Resp.netErr Resp.netErr) = [("quinnflix", "online")] :=
  fallback_law [("quinnflix", "online")] false Resp.netErr Resp.netErr (by decide) (by decide)

/-- C6: if the fetch fails (returns `None`) while the cached snapshot is
empty, the snapshot after the tick is the all-offline dict, mapping every
tracked service to 'offline'. -/
theorem cold_start_law (cfg : Bool) (dirResp : Resp (List (List RawMonitor)))
    (hbResp : Resp (List (String × List Beat)))
    (hfail : fetch_uptime_kuma_status cfg dirResp hbResp = none) :
    update_status_tick [] (fetch_uptime_kuma_status cfg dirResp hbResp) = allOffline ∧
    keysOf allOffline = programIds ∧
    dictGet allOffline "quinnflix" = some "offline" ∧
    dictGet allOffline "vintage" = some "offline" ∧
    dictGet allOffline "sugarcraft" = some "offline" := by
  rw [hfail]
  exact ⟨rfl, by decide, by decide, by decide, by decide⟩

theorem cold_start_law_witness :
    update_status_tick [] (fetch_uptime_kuma_status false Resp.netErr Resp.netErr)
      = allOffline ∧
    keysOf allOffline = programIds ∧
    dictGet allOffline "quinnflix" = some "offline" ∧
    dictGet allOffline "vintage" = some "offline" ∧
    dictGet allOffline "sugarcraft" = some "offline" :=
  cold_start_law false Resp.netErr Resp.netErr (by decide)

/-- C7: if the directory call succeeds (HTTP 200, parsed body) but the
heartbeat call fails with a non-success response or a malformed body, the
fetch returns the all-offline mapping over all tracked services, not an
error. -/
theorem heartbeat_failure_all_offline (dirBody : List (List RawMonitor)) (hbStatus : Nat)
    (hbBody : Option (List (String × List Beat)))
    (hfail : hbStatus ≠ 200 ∨ hbBody = none) :
    fetch_uptime_kuma_status true (Resp.httpResp 200 (some dirBody))
        (Resp.httpResp hbStatus hbBody) = some allOffline ∧
    keysOf allOffline = programIds ∧
    dictGet allOffline "quinnflix" = some "offline" ∧
    dictGet allOffline "vintage" = some "offline" ∧
    dictGet allOffline "sugarcraft" = some "offline" := by
  refine ⟨?_, by decide, by decide, by decide, by decide⟩
  rcases hfail with h | h
  · simp [fetch_uptime_kuma_status, h]
  · subst h
    by_cases h2 : hbStatus = 200 <;> simp [fetch_uptime_kuma_status, h2]

theorem heartbeat_failure_all_offline_witness :
    fetch_uptime_kuma_status true (Resp.httpResp 200 (some []))
        (Resp.httpResp 500 none) = some allOffline ∧
    keysOf allOffline = programIds ∧
    dictGet allOffline "quinnflix" = some "offline" ∧
    dictGet allOffline "vintage" = some "offline" ∧
    dictGet allOffline "sugarcraft" = some "offline" :=
  heartbeat_failure_all_offline [] 500 none (Or.inl (by decide))

/-- C2 counterexample: a network error during the directory call does not
propagate a failure to the caller; the fetch returns the all-offline status
mapping instead of an error result. -/
theorem directory_netErr_counterexample :
    fetch_uptime_kuma_status true Resp.netErr Resp.netErr ≠ none ∧
    fetch_uptime_kuma_status true Resp.netErr Resp.netErr = some allOffline := by
  exact ⟨by decide, by decide⟩

/-- C2 amended: when the directory call returns a non-success HTTP response
the fetch propagates an error (`None`); but a network error during the
directory call, or a malformed directory body, makes the fetch return the
all-offline status mapping rather than an error. -/
theorem directory_failure_modes (dirStatus : Nat)
    (dirBody : Option (List (List RawMonitor)))
    (hbResp : Resp (List (String × List Beat)))
    (hcode : dirStatus ≠ 200) :
    fetch_uptime_kuma_status true (Resp.httpResp dirStatus dirBody) hbResp = none ∧
    fetch_uptime_kuma_status true Resp.netErr hbResp = some allOffline ∧
    fetch_uptime_kuma_status true (Resp.httpResp 200 none) hbResp = some allOffline := by
  refine ⟨?_, rfl, rfl⟩
  simp [fetch_uptime_kuma_status, hcode]

theorem directory_failure_modes_witness :
    fetch_uptime_kuma_status true (Resp.httpResp 500 none) Resp.netErr = none ∧
    fetch_uptime_kuma_status true Resp.netErr Resp.netErr = some allOffline ∧
    fetch_uptime_kuma_status true (Resp.httpResp 200 none) Resp.netErr
      = some allOffline :=
  directory_failure_modes 500 none Resp.netErr (by decide)

/-- C10: a POST to `/update` without an `X-Hub-Signature-256` header skips
verification, runs the update script and answers 'OK' with status 200; a
request is rejected with 401 exactly when it presents a signature that fails
verification. -/
theorem webhook_signature_policy (hexdigest : String → List Nat → String)
    (request_data : List Nat) (signature : Option String) :
    handle_webhook hexdigest none request_data
      = { body := "OK", status := 200, ranUpdate := true } ∧
    ((handle_webhook hexdigest signature request_data).status = 401 ↔
      ∃ sig, signature = some sig ∧ sig ≠ "sha256=" ++ hexdigest SECRET request_data) := by
  refine ⟨rfl, ?_⟩
  cases signature with
  | none => simp [handle_webhook]
  | some sig =>
    by_cases h : sig = "sha256=" ++ hexdigest SECRET request_data
    · simp [handle_webhook, h]
    · simp [handle_webhook, h]

theorem foldl_heartbeatStep_preserve (feed : List (String × List Beat))
    (mid : String) (h : ∀ q ∈ feed, q.1 ≠ mid) (acc : List (String × String)) :
    dictGet (feed.foldl heartbeatStep acc) mid = dictGet acc mid := by
  induction feed generalizing acc with
  | nil => rfl
  | cons q t ih =>
    rw [List.foldl_cons, ih (fun r hr => h r (List.mem_cons_of_mem _ hr))]
    cases hq : q.2.getLast? with
    | none => simp [heartbeatStep, hq]
    | some b =>
      simp only [heartbeatStep, hq]
      exact dictGet_insert_ne acc mid q.1 _ (h q (List.mem_cons_self q t))

theorem dictGet_monitorStatuses_aux (mid : String) (beats : List Beat) (hne : beats ≠ []) :
    ∀ feed : List (String × List Beat), (keysOf feed).Nodup → (mid, beats) ∈ feed →
    ∀ acc, dictGet (feed.foldl heartbeatStep acc) mid
      = some (mapStatusValue ((beats.getLast hne).status)) := by
  intro feed
  induction feed with
  | nil => intro _ hmem; cases hmem
  | cons q t ih =>
    intro hnd hmem acc
    rw [List.foldl_cons]
    have hnd' := (List.nodup_cons.mp hnd).2
    rcases List.mem_cons.mp hmem with heq | hmem'
    · have hq1 : q.1 = mid := by rw [← heq]
      have hkeys : ∀ r ∈ t, r.1 ≠ mid := by
        intro r hr hcontra
        exact (List.nodup_cons.mp hnd).1 (hq1 ▸ hcontra ▸ List.mem_map_of_mem Prod.fst hr)
      rw [foldl_heartbeatStep_preserve t mid hkeys]
      have hq2 : q.2 = beats := by rw [← heq]
      simp only [heartbeatStep, hq2, List.getLast?_eq_getLast beats hne, hq1]
      exact dictGet_insert_self acc mid _
    · exact ih hnd' hmem' _

/-- C4: for every monitor whose heartbeat sequence is non-empty (appearing
once in the heartbeat feed, as JSON object keys are unique), the aggregator
assigns it the mapped status of the last (most recent) sample, where the code
table sends 1 to online, 0 to offline, 2 to maintenance, and any other code
(the parameter `c`) to offline. -/
theorem heartbeat_last_sample_mapping (feed : List (String × List Beat))
    (mid : String) (beats : List Beat)
    (hnd : (keysOf feed).Nodup) (hmem : (mid, beats) ∈ feed) (hne : beats ≠ [])
    (c : Option Int) (hc1 : c ≠ some 1) (hc0 : c ≠ some 0) (hc2 : c ≠ some 2) :
    dictGet (monitorStatuses feed) mid
      = some (mapStatusValue ((beats.getLast hne).status)) ∧
    mapStatusValue (some 1) = "online" ∧
    mapStatusValue (some 0) = "offline" ∧
    mapStatusValue (some 2) = "maintenance" ∧
    mapStatusValue c = "offline" := by
  refine ⟨dictGet_monitorStatuses_aux mid beats hne feed hnd hmem [], rfl, rfl, rfl, ?_⟩
  unfold mapStatusValue
  rw [if_neg hc1, if_neg hc0, if_neg hc2]

theorem heartbeat_last_sample_mapping_witness :
    dictGet (monitorStatuses [("7", [Beat.mk (some 0), Beat.mk (some 1)])]) "7"
      = some (mapStatusValue
          ((([Beat.mk (some 0), Beat.mk (some 1)] : List Beat).getLast (by decide)).status)) ∧
    mapStatusValue (some 1) = "online" ∧
    mapStatusValue (some 0) = "offline" ∧
    mapStatusValue (some 2) = "maintenance" ∧
    mapStatusValue (some 99) = "offline" :=
  heartbeat_last_sample_mapping [("7", [Beat.mk (some 0), Beat.mk (some 1)])] "7"
    [Beat.mk (some 0), Beat.mk (some 1)] (by decide) (by decide) (by decide)
    (some 99) (by decide) (by decide) (by decide)

theorem findMonitorId_eq_none (dir : List (String × String)) (nm : String)
    (h : ∀ q ∈ dir, q.2 ≠ nm) : findMonitorId dir nm = none := by
  unfold findMonitorId
  rw [List.find?_eq_none.mpr]
  · rfl
  · intro q hq
    simp [h q hq]

theorem dictGet_pairMap {α β : Type} (g : String × α → β) (k : String) (v : α) :
    ∀ l : List (String × α), (keysOf l).Nodup → (k, v) ∈ l →
    dictGet (l.map (fun p => (p.1, g p))) k = some (g (k, v)) := by
  intro l
  induction l with
  | nil => intro _ hmem; cases hmem
  | cons q t ih =>
    intro hnd hmem
    rcases List.mem_cons.mp hmem with heq | hmem'
    · rw [← heq]
      simp [dictGet]
    · have hk : q.1 ≠ k := by
        intro hcontra
        exact (List.nodup_cons.mp hnd).1
          (hcontra ▸ List.mem_map_of_mem Prod.fst hmem')
      simp [dictGet, hk, ih (List.nodup_cons.mp hnd).2 hmem']

/-- C5: a tracked service whose configured monitor name appears nowhere in
the fetched monitor directory reconciles to 'offline', regardless of the
heartbeat-derived statuses `ms`; and with an empty directory the whole
snapshot is the all-offline dict. -/
theorem missing_monitor_offline (dir ms : List (String × String))
    (prog_id : String) (info : ProgInfo)
    (hmem : (prog_id, info) ∈ PROGRAMS)
    (habsent : ∀ q ∈ dir, q.2 ≠ info.monitor_name) :
    dictGet (programStatuses dir ms) prog_id = some "offline" ∧
    programStatuses [] ms = allOffline := by
  constructor
  · have hfind : findMonitorId dir info.monitor_name = none :=
      findMonitorId_eq_none dir _ habsent
    unfold programStatuses
    rw [dictGet_pairMap _ prog_id info PROGRAMS (by decide) hmem]
    simp [programStatusOf, hfind]
  · rfl

theorem missing_monitor_offline_witness :
    dictGet (programStatuses [("5", "SomethingElse")] [("5", "online")]) "quinnflix"
      = some "offline" ∧
    programStatuses [] [("5", "online")] = allOffline :=
  missing_monitor_offline [("5", "SomethingElse")] [("5", "online")] "quinnflix"
    { name := "Quinnflix", description := "Media streaming & request service",
      emoji := "🎬", monitor_name := "Quinnflix" }
    (by decide) (by decide)

/-! Lemmas about the settings store. -/

theorem getPrograms_toggle (store : ServerSettings) (S P : String) :
    getPrograms (toggleSubscription store S P) S =
      (if P ∈ getPrograms store S then (getPrograms store S).erase P
       else getPrograms store S ++ [P]) := by
  unfold toggleSubscription getPrograms
  by_cases hc : dictContains store S = true
  · simp only [hc, if_true, dictGet_insert_self]
    rfl
  · have hcf : dictContains store S = false := by simpa using hc
    have hget : dictGet store S = none := dictGet_eq_none_of_not_contains store S hcf
    simp only [hcf, Bool.false_eq_true, if_false, dictGet_insert_self, hget]
    simp [emptyGuildSettings]

theorem erase_append_singleton (l : List String) (P : String) (h : P ∉ l) :
    (l ++ [P]).erase P = l := by
  induction l with
  | nil => simp
  | cons a t ih =>
    have ha : a ≠ P := fun hc => h (hc ▸ List.mem_cons_self a t)
    have ht : P ∉ t := fun hc => h (List.mem_cons_of_mem a hc)
    rw [List.cons_append, List.erase_cons_tail, ih ht]
    simp [ha]

theorem toggle_twice_mem (l : List String) (P x : String) (hnd : l.Nodup) :
    (x ∈ (if P ∈ (if P ∈ l then l.erase P else l ++ [P])
            then (if P ∈ l then l.erase P else l ++ [P]).erase P
            else (if P ∈ l then l.erase P else l ++ [P]) ++ [P])
      ↔ x ∈ l) := by
  by_cases hP : P ∈ l
  · rw [if_pos hP]
    have hPnot : P ∉ l.erase P := fun hmem => ((hnd.mem_erase_iff.mp hmem).1) rfl
    rw [if_neg hPnot, List.mem_append]
    by_cases hx : x = P
    · simp [hx, hP]
    · simp [hx, List.mem_erase_of_ne hx]
  · rw [if_neg hP, if_pos (by simp)]
    rw [erase_append_singleton l P hP]

/-- C8: setting a server's announcement channel to `C` and then reading that
server's settings yields channel `C`; and toggling a program's subscription
twice in a row leaves the server's subscribed-program set (the effective
preference list read back with its default, as a set) unchanged. The stored
preference list is duplicate-free, an invariant of the store's own
operations, stated as the hypothesis `hnd`. -/
theorem settings_roundtrip (store : ServerSettings) (S : String) (C : Int) (P : String)
    (hnd : (getPrograms store S).Nodup) :
    getChannel (setChannel store S C) S = some C ∧
    (getPrograms (toggleSubscription (toggleSubscription store S P) S P) S).toFinset
      = (getPrograms store S).toFinset := by
  constructor
  · unfold getChannel setChannel
    rw [dictGet_insert_self]
    rfl
  · apply Finset.ext
    intro x
    rw [List.mem_toFinset, List.mem_toFinset, getPrograms_toggle, getPrograms_toggle]
    exact toggle_twice_mem (getPrograms store S) P x hnd

theorem settings_roundtrip_witness :
    getChannel (setChannel ([] : ServerSettings) "123456" 42) "123456" = some 42 ∧
    (getPrograms (toggleSubscription
        (toggleSubscription ([] : ServerSettings) "123456" "vintage") "123456" "vintage")
        "123456").toFinset
      = (getPrograms ([] : ServerSettings) "123456").toFinset :=
  settings_roundtrip ([] : ServerSettings) "123456" 42 "vintage" (by decide)

/-! Lemmas about the polling loop. -/

theorem fetchOutput_keys (i : FetchInput) :
    fetchOutput i = none ∨
    ∃ s, fetchOutput i = some s ∧ keysOf s = programIds := by
  rcases i with ⟨cfg, d, hb⟩
  cases cfg with
  | false => exact Or.inl rfl
  | true =>
    cases d with
    | netErr => exact Or.inr ⟨allOffline, rfl, by decide⟩
    | httpResp status body =>
      by_cases hs : status = 200
      · subst hs
        cases body with
        | none => exact Or.inr ⟨allOffline, rfl, by decide⟩
        | some sd =>
          cases hb with
          | netErr => exact Or.inr ⟨allOffline, rfl, by decide⟩
          | httpResp hstat hbody =>
            by_cases hh : hstat = 200
            · subst hh
              cases hbody with
              | none => exact Or.inr ⟨allOffline, rfl, by decide⟩
              | some hd =>
                exact Or.inr ⟨_, rfl, keysOf_programStatuses _ _⟩
            · refine Or.inr ⟨allOffline, ?_, by decide⟩
              simp [fetchOutput, fetch_uptime_kuma_status, hh]
      · refine Or.inl ?_
        simp [fetchOutput, fetch_uptime_kuma_status, hs]

theorem update_status_tick_keys (cache : List (String × String)) (i : FetchInput)
    (hcache : cache = [] ∨ keysOf cache = programIds) :
    keysOf (update_status_tick cache (fetchOutput i)) = programIds := by
  rcases fetchOutput_keys i with hnone | ⟨s, hs, hks⟩
  · rw [hnone]
    unfold update_status_tick
    rcases hcache with rfl | hk
    · decide
    · have hne : cache.isEmpty = false := by
        cases cache with
        | nil => exact absurd hk.symm (by decide)
        | cons a t => rfl
      simp [hne, hk]
  · rw [hs]
    unfold update_status_tick
    have hsne : s.isEmpty = false := by
      cases s with
      | nil => exact absurd hks (by decide)
      | cons a t => rfl
    simp [hsne, hks]

theorem runLoop_keys_aux (inputs : List FetchInput) (cache : List (String × String))
    (h : keysOf cache = programIds) :
    keysOf (inputs.foldl (fun c i => update_status_tick c (fetchOutput i)) cache)
      = programIds := by
  induction inputs generalizing cache with
  | nil => exact h
  | cons i t ih =>
    rw [List.foldl_cons]
    exact ih _ (update_status_tick_keys cache i (Or.inr h))

theorem dictGet_PROGRAMS_isSome (k : String) (hk : k ∈ programIds) :
    (dictGet PROGRAMS k).isSome = true := by
  have hk' : k ∈ ["quinnflix", "vintage", "sugarcraft"] := by
    simpa [programIds, PROGRAMS] using hk
  fin_cases hk' <;> rfl

theorem statusParts_isSome (cache : List (String × String))
    (h : ∀ p ∈ cache, (dictGet PROGRAMS p.1).isSome = true) :
    (statusParts cache).isSome = true := by
  induction cache with
  | nil => rfl
  | cons p t ih =>
    obtain ⟨info, hinfo⟩ := Option.isSome_iff_exists.mp (h p (List.mem_cons_self p t))
    obtain ⟨parts, hparts⟩ :=
      Option.isSome_iff_exists.mp (ih (fun q hq => h q (List.mem_cons_of_mem p hq)))
    simp [statusParts, hinfo, hparts]

/-- C9: after any non-empty sequence of polling ticks starting from the
empty cache, the cached snapshot's key set equals `PROGRAMS.keys()`, and
therefore the presence-string builder's unguarded `PROGRAMS[prog_id]`
subscript never raises: the derived status text is always produced. -/
theorem presence_lookup_safe (inputs : List FetchInput) (hne : inputs ≠ []) :
    keysOf (runLoop inputs) = programIds ∧
    (statusText (runLoop inputs)).isSome = true := by
  have hkeys : keysOf (runLoop inputs) = programIds := by
    cases inputs with
    | nil => exact absurd rfl hne
    | cons i t =>
      unfold runLoop
      rw [List.foldl_cons]
      exact runLoop_keys_aux t _ (update_status_tick_keys [] i (Or.inl rfl))
  refine ⟨hkeys, ?_⟩
  have hparts : (statusParts (runLoop inputs)).isSome = true := by
    apply statusParts_isSome
    intro p hp
    apply dictGet_PROGRAMS_isSome
    rw [← hkeys]
    exact List.mem_map_of_mem Prod.fst hp
  obtain ⟨parts, hp⟩ := Option.isSome_iff_exists.mp hparts
  simp [statusText, hp]

theorem presence_lookup_safe_witness :
    keysOf (runLoop [⟨false, Resp.netErr, Resp.netErr⟩]) = programIds ∧
    (statusText (runLoop [⟨false, Resp.netErr, Resp.netErr⟩])).isSome = true :=
  presence_lookup_safe [⟨false, Resp.netErr, Resp.netErr⟩] (List.cons_ne_nil _ _)

end QuinnBot
